import Mathlib

/-!
Verification of the Pangolin Android tunnel control surface.

The repository's only visible source file, src/tunnel/tools/libpangolin-go/jni.c,
is the FFI glue between the managed runtime and the Go backend that implements
the Tunnel Control Surface (TunnelController, SessionManager, DeviceRegistry,
NetworkSettingsStore, DiagnosticsBridge).  The backend itself is not under src/,
so its operations are modelled from the specification (each such definition says
so in its doc comment); the observable behaviour of the JNI glue is embedded
from jni.c.
-/

namespace Pangolin

/-- Modelled from the spec: the TunnelController state machine
Idle → Starting → Running → Stopping → Idle.  Idle is the initial state. -/
inductive TunnelState
  | Idle
  | Starting
  | Running
  | Stopping
deriving DecidableEq

/-- Modelled from the spec: SessionState is
status (Uninitialized or Initialized) together with the session material. -/
structure SessionState where
  initialized : Bool
  material : String
deriving DecidableEq

/-- Modelled from the spec: PowerMode is a closed enumeration of operating
profiles; the spec names no concrete modes, so three representative profiles
are used. -/
inductive PowerMode
  | Normal
  | LowPower
  | HighPerformance
deriving DecidableEq

/-- Modelled from the spec: error taxonomy of section 7. -/
inductive Err
  | DecodeError
  | InvalidState
  | NotRunning
  | AlreadyInitialized
  | SessionNotReady
  | DuplicateDevice
  | IOError
  | UnknownMode
deriving DecidableEq

/-- Modelled from the spec: every failure crosses the boundary as a
descriptive string. -/
def errString : Err → String
  | .DecodeError => "DecodeError: malformed configuration"
  | .InvalidState => "InvalidState: operation not valid in current tunnel state"
  | .NotRunning => "NotRunning: tunnel is not running"
  | .AlreadyInitialized => "AlreadyInitialized: session material already established"
  | .SessionNotReady => "SessionNotReady: session must be initialized before start"
  | .DuplicateDevice => "DuplicateDevice: identity already registered"
  | .IOError => "IOError: log path unwritable"
  | .UnknownMode => "UnknownMode: unrecognized power mode"

/-- Modelled from the spec: TunnelConfig, the caller-supplied configuration,
immutable after acceptance. -/
structure TunnelConfig where
  raw : String
deriving DecidableEq

/-- Modelled from the spec: the explicit ControllerState struct of section 9
holding the process-wide mutable state: the TunnelController state, the
TunnelHandle over the fd (at most one live handle), the SessionManager state,
the DeviceRegistry (identities of added devices), the NetworkSettingsStore
(version counter and committed payload), and the DiagnosticsBridge state
(log sink, ingested lines, power mode). -/
structure ControllerState where
  tunnel : TunnelState
  handle : Option Int
  session : SessionState
  devices : List Int
  version : Nat
  snapshot : String
  logSink : Option String
  logLines : List String
  power : PowerMode
deriving DecidableEq

/-- Modelled from the spec: the fresh initial state — Idle, no handle, session
Uninitialized, empty registry, version 0 before any tunnel has ever run. -/
def initState : ControllerState :=
  ⟨.Idle, none, ⟨false, ""⟩, [], 0, "", none, [], .Normal⟩

/-- Modelled from the spec: ConfigCodec.decode fails with DecodeError on
malformed input; JSON parsing itself is out of scope, so a blob is taken to be
well-formed exactly when it is nonempty. -/
def decode (raw : String) : Option TunnelConfig :=
  if raw.isEmpty then none else some ⟨raw⟩

/-- Modelled from the spec: the identity the DeviceRegistry derives from a
file descriptor. -/
def deriveIdentity (fd : Int) : Int := fd

/-- Modelled from the spec: NetworkSettingsStore.commit increments the version
unconditionally and replaces the snapshot. -/
def commit (payload : String) (s : ControllerState) : ControllerState :=
  { s with version := s.version + 1, snapshot := payload }

/-- Modelled from the spec: SessionManager session establishment (the backend
function declared as initOlm in jni.c).  Decodes the config; fails with
AlreadyInitialized when called while the session is already Initialized,
without replacing the existing material; otherwise transitions SessionState to
Initialized. -/
def initOlm (configJSON : String) (s : ControllerState) :
    Option String × ControllerState :=
  if s.session.initialized then
    (some (errString .AlreadyInitialized), s)
  else
    match decode configJSON with
    | none => (some (errString .DecodeError), s)
    | some c => (none, { s with session := ⟨true, c.raw⟩ })

/-- Modelled from the spec: TunnelController.start — valid only from Idle
(InvalidState otherwise); decodes the config, acquires the TunnelHandle over
fd, requires the session to be Initialized (SessionNotReady otherwise, with the
handle released again), then transitions to Running and commits the new network
settings.  All-or-nothing: every failure leaves the state exactly as before. -/
def startTunnel (fd : Int) (configJSON : String) (s : ControllerState) :
    Option String × ControllerState :=
  if s.tunnel ≠ .Idle then
    (some (errString .InvalidState), s)
  else
    match decode configJSON with
    | none => (some (errString .DecodeError), s)
    | some c =>
      if s.session.initialized then
        (none, commit c.raw { s with tunnel := .Running, handle := some fd })
      else
        (some (errString .SessionNotReady), s)

/-- Modelled from the spec: DeviceRegistry.add via the controller — fails with
NotRunning unless the controller is in Starting/Running, fails with
DuplicateDevice when the identity derived from fd already exists, otherwise
registers the device and commits (device add affects routing state). -/
def addDevice (fd : Int) (s : ControllerState) :
    Option String × ControllerState :=
  match s.tunnel with
  | .Starting =>
    if deriveIdentity fd ∈ s.devices then
      (some (errString .DuplicateDevice), s)
    else
      (none, commit s.snapshot { s with devices := deriveIdentity fd :: s.devices })
  | .Running =>
    if deriveIdentity fd ∈ s.devices then
      (some (errString .DuplicateDevice), s)
    else
      (none, commit s.snapshot { s with devices := deriveIdentity fd :: s.devices })
  | _ => (some (errString .NotRunning), s)

/-- Modelled from the spec: TunnelController.stop — from Idle it is a no-op
success; from Starting/Running it transitions through Stopping to Idle,
releases the TunnelHandle and clears the DeviceRegistry, and does NOT reset
the SessionManager. -/
def stopTunnel (s : ControllerState) : Option String × ControllerState :=
  match s.tunnel with
  | .Idle => (none, s)
  | .Starting => (none, { s with tunnel := .Idle, handle := none, devices := [] })
  | .Running => (none, { s with tunnel := .Idle, handle := none, devices := [] })
  | .Stopping => (some (errString .InvalidState), s)

/-- Modelled from the spec: NetworkSettingsStore.currentVersion — non-blocking,
always succeeds, returns the last committed version. -/
def getNetworkSettingsVersion (s : ControllerState) : Nat := s.version

/-- Modelled from the spec: NetworkSettingsStore.currentSnapshot serialized by
ConfigCodec — null before anything was ever committed, else the payload. -/
def getNetworkSettings (s : ControllerState) : Option String :=
  if s.version = 0 then none else some s.snapshot

/-- Modelled from the spec: DiagnosticsBridge.setPowerMode decodes the open
string eagerly into the closed PowerMode enumeration. -/
def parsePowerMode : String → Option PowerMode
  | "normal" => some .Normal
  | "low" => some .LowPower
  | "high" => some .HighPerformance
  | _ => none

/-- Modelled from the spec: setPowerMode fails with UnknownMode for
unrecognized values, otherwise updates the process-wide PowerMode. -/
def setPowerMode (mode : String) (s : ControllerState) :
    Option String × ControllerState :=
  match parsePowerMode mode with
  | none => (some (errString .UnknownMode), s)
  | some p => (none, { s with power := p })

/-- Modelled from the spec: DiagnosticsBridge.enableFileLogging fails with
IOError if the path is unwritable (modelled as the empty path), otherwise
opens the log sink. -/
def enableFileLogging (path : String) (s : ControllerState) :
    Option String × ControllerState :=
  if path.isEmpty then (some (errString .IOError), s)
  else (none, { s with logSink := some path })

/-- Modelled from the spec: DiagnosticsBridge.disableFileLogging — idempotent,
a no-op if logging is not enabled, always succeeds. -/
def disableFileLogging (s : ControllerState) :
    Option String × ControllerState :=
  (none, { s with logSink := none })

/-- Modelled from the spec: DiagnosticsBridge.ingest (logFromAndroid) —
fire-and-forget write into the active sink, a no-op when logging is
disabled. -/
def logFromAndroid (message : String) (s : ControllerState) : ControllerState :=
  match s.logSink with
  | some _ => { s with logLines := s.logLines ++ [message] }
  | none => s

/-- One call into the control surface, as reachable through the boundary. -/
inductive Op
  | init (configJSON : String)
  | start (fd : Int) (configJSON : String)
  | add (fd : Int)
  | stop
  | power (mode : String)
  | enableLog (path : String)
  | disableLog
  | ingest (message : String)
  | readVersion
  | readSettings

/-- Runs one operation: the returned string is the backend result (null for
success, a descriptive error string for failure; read operations carry their
payload out of band and never fail). -/
def runOp : Op → ControllerState → Option String × ControllerState
  | .init c, s => initOlm c s
  | .start fd c, s => startTunnel fd c s
  | .add fd, s => addDevice fd s
  | .stop, s => stopTunnel s
  | .power m, s => setPowerMode m s
  | .enableLog p, s => enableFileLogging p s
  | .disableLog, s => disableFileLogging s
  | .ingest m, s => (none, logFromAndroid m s)
  | .readVersion, s => (none, s)
  | .readSettings, s => (none, s)

/-- Runs a sequence of operations, discarding results. -/
def run : List Op → ControllerState → ControllerState
  | [], s => s
  | op :: ops, s => run ops (runOp op s).2

/-- Embedded from src/tunnel/tools/libpangolin-go/jni.c: every JNI wrapper
returns NULL when the backend returns NULL, and otherwise a JVM copy of the
backend's string (freeing the C buffer).  The value observed by the managed
caller is therefore identical to the backend result. -/
def jniString : Option String → Option String
  | none => none
  | some msg => some msg

/-- The boundary as the managed runtime sees it: jni.c's wrapper applied to
the backend result of one operation. -/
def boundary (op : Op) (s : ControllerState) : Option String × ControllerState :=
  let r := runOp op s
  (jniString r.1, r.2)

/-- The arcs of the spec's state machine
Idle → Starting → Running → Stopping → Idle. -/
def edge : TunnelState → TunnelState → Bool
  | .Idle, .Starting => true
  | .Starting, .Running => true
  | .Running, .Stopping => true
  | .Stopping, .Idle => true
  | _, _ => false

/-- A valid path in the state machine: zero or more arcs. -/
def validPath (a b : TunnelState) : Prop :=
  Relation.ReflTransGen (fun x y => edge x y = true) a b

/-- Which boundary operations are invalid in a given state, following the
spec: start only from Idle, addDevice only in Starting/Running, initSession
only while Uninitialized. -/
def invalidFor : Op → ControllerState → Bool
  | .init _, s => s.session.initialized
  | .start _ _, s => s.tunnel ≠ .Idle
  | .add _, s => !(s.tunnel = .Starting || s.tunnel = .Running)
  | _, _ => false

/-- The lifecycle error the spec assigns to each operation's invalid-state
case. -/
def lifecycleError : Op → Err
  | .init _ => .AlreadyInitialized
  | .start _ _ => .InvalidState
  | .add _ => .NotRunning
  | _ => .InvalidState

/-- Operations whose boundary output is an error-string-or-null result. -/
def isResultOp : Op → Bool
  | .init _ => true
  | .start _ _ => true
  | .add _ => true
  | .stop => true
  | .power _ => true
  | _ => false

/-- The spec-side success condition of each error-string-or-null operation,
read off the words of sections 4 and 7. -/
def opSucceeds : Op → ControllerState → Bool
  | .init c, s => (decode c).isSome && !s.session.initialized
  | .start _ c, s => s.tunnel = .Idle && (decode c).isSome && s.session.initialized
  | .add fd, s =>
      (s.tunnel = .Starting || s.tunnel = .Running)
        && !(decide (deriveIdentity fd ∈ s.devices))
  | .stop, s => s.tunnel ≠ .Stopping
  | .power m, _ => (parsePowerMode m).isSome
  | _, _ => true

/-- Basic reachability invariant: between boundary calls the controller is
observed in Idle or Running only; in Idle no handle is held and the registry
is empty; in Running a handle is held and the session is Initialized. -/
def Inv (s : ControllerState) : Prop :=
  (s.tunnel = .Idle ∨ s.tunnel = .Running)
    ∧ (s.tunnel = .Idle → s.handle = none ∧ s.devices = [])
    ∧ (s.tunnel = .Running → s.handle.isSome = true ∧ s.session.initialized = true)

theorem inv_initState : Inv initState := by
  refine ⟨Or.inl rfl, fun _ => ⟨rfl, rfl⟩, fun h => ?_⟩
  simp [initState] at h

theorem inv_step (op : Op) (s : ControllerState) (h : Inv s) : Inv (runOp op s).2 := by
  obtain ⟨h1, h2, h3⟩ := h
  cases op with
  | init c =>
      by_cases hi : s.session.initialized
      · have hst : (runOp (Op.init c) s).2 = s := by simp [runOp, initOlm, hi]
        rw [hst]; exact ⟨h1, h2, h3⟩
      · cases hd : decode c with
        | none =>
            have hst : (runOp (Op.init c) s).2 = s := by simp [runOp, initOlm, hi, hd]
            rw [hst]; exact ⟨h1, h2, h3⟩
        | some cc =>
            have hst : (runOp (Op.init c) s).2 = { s with session := ⟨true, cc.raw⟩ } := by
              simp [runOp, initOlm, hi, hd]
            rw [hst]
            exact ⟨h1, h2, fun hr => ⟨(h3 hr).1, rfl⟩⟩
  | start fd c =>
      by_cases ht : s.tunnel = .Idle
      · cases hd : decode c with
        | none =>
            have hst : (runOp (Op.start fd c) s).2 = s := by
              simp [runOp, startTunnel, ht, hd]
            rw [hst]; exact ⟨h1, h2, h3⟩
        | some cc =>
            by_cases hi : s.session.initialized
            · have hst : (runOp (Op.start fd c) s).2
                  = commit cc.raw { s with tunnel := .Running, handle := some fd } := by
                simp [runOp, startTunnel, ht, hd, hi]
              rw [hst]
              refine ⟨Or.inr rfl, fun hc => ?_, fun _ => ⟨rfl, hi⟩⟩
              simp [commit] at hc
            · have hst : (runOp (Op.start fd c) s).2 = s := by
                simp [runOp, startTunnel, ht, hd, hi]
              rw [hst]; exact ⟨h1, h2, h3⟩
      · have hst : (runOp (Op.start fd c) s).2 = s := by simp [runOp, startTunnel, ht]
        rw [hst]; exact ⟨h1, h2, h3⟩
  | add fd =>
      rcases h1 with ht | ht
      · have hst : (runOp (Op.add fd) s).2 = s := by simp [runOp, addDevice, ht]
        rw [hst]; exact ⟨Or.inl ht, h2, h3⟩
      · by_cases hm : deriveIdentity fd ∈ s.devices
        · have hst : (runOp (Op.add fd) s).2 = s := by simp [runOp, addDevice, ht, hm]
          rw [hst]; exact ⟨Or.inr ht, h2, h3⟩
        · have hst : (runOp (Op.add fd) s).2
              = commit s.snapshot { s with devices := deriveIdentity fd :: s.devices } := by
            simp [runOp, addDevice, ht, hm]
          rw [hst]
          refine ⟨Or.inr ht, fun hc => ?_, fun _ => h3 ht⟩
          simp [commit, ht] at hc
  | stop =>
      rcases h1 with ht | ht
      · have hst : (runOp Op.stop s).2 = s := by simp [runOp, stopTunnel, ht]
        rw [hst]; exact ⟨Or.inl ht, h2, h3⟩
      · have hst : (runOp Op.stop s).2
            = { s with tunnel := .Idle, handle := none, devices := [] } := by
          simp [runOp, stopTunnel, ht]
        rw [hst]
        refine ⟨Or.inl rfl, fun _ => ⟨rfl, rfl⟩, fun hc => ?_⟩
        simp at hc
  | power m =>
      cases hm : parsePowerMode m with
      | none =>
          have hst : (runOp (Op.power m) s).2 = s := by simp [runOp, setPowerMode, hm]
          rw [hst]; exact ⟨h1, h2, h3⟩
      | some p =>
          have hst : (runOp (Op.power m) s).2 = { s with power := p } := by
            simp [runOp, setPowerMode, hm]
          rw [hst]; exact ⟨h1, h2, h3⟩
  | enableLog p =>
      by_cases hp : p.isEmpty
      · have hst : (runOp (Op.enableLog p) s).2 = s := by
          simp [runOp, enableFileLogging, hp]
        rw [hst]; exact ⟨h1, h2, h3⟩
      · have hst : (runOp (Op.enableLog p) s).2 = { s with logSink := some p } := by
          simp [runOp, enableFileLogging, hp]
        rw [hst]; exact ⟨h1, h2, h3⟩
  | disableLog => exact ⟨h1, h2, h3⟩
  | ingest m =>
      cases hl : s.logSink with
      | none =>
          have hst : (runOp (Op.ingest m) s).2 = s := by simp [runOp, logFromAndroid, hl]
          rw [hst]; exact ⟨h1, h2, h3⟩
      | some p =>
          have hst : (runOp (Op.ingest m) s).2
              = { s with logLines := s.logLines ++ [m] } := by
            simp [runOp, logFromAndroid, hl]
          rw [hst]; exact ⟨h1, h2, h3⟩
  | readVersion => exact ⟨h1, h2, h3⟩
  | readSettings => exact ⟨h1, h2, h3⟩

theorem inv_run (ops : List Op) : Inv (run ops initState) := by
  suffices h : ∀ s, Inv s → Inv (run ops s) from h initState inv_initState
  induction ops with
  | nil => exact fun s hs => hs
  | cons op ops ih => exact fun s hs => ih (runOp op s).2 (inv_step op s hs)

theorem version_step (op : Op) (s : ControllerState) :
    s.version ≤ (runOp op s).2.version := by
  cases op <;>
    simp only [runOp, initOlm, startTunnel, addDevice, stopTunnel, setPowerMode,
      enableFileLogging, disableFileLogging, logFromAndroid, commit] <;>
    (repeat' split) <;> simp

/-- Claim C4 (confirmed): the network-settings version is monotonically
non-decreasing across every sequence of operations — no operation (start,
stop, addDevice, initSession, commit, or any read) ever causes
getNetworkSettingsVersion to decrease. -/
theorem version_monotone (ops : List Op) (s : ControllerState) :
    getNetworkSettingsVersion s ≤ getNetworkSettingsVersion (run ops s) := by
  induction ops generalizing s with
  | nil => exact le_refl _
  | cons op ops ih =>
      exact le_trans (version_step op s) (ih (runOp op s).2)

/-- Claim C3 (confirmed): stopTunnel from Idle succeeds (null result) and
changes no state, so two stops in a row from Idle both succeed with no state
change. -/
theorem stop_idempotent_from_idle (s : ControllerState) (h : s.tunnel = .Idle) :
    stopTunnel s = (none, s) ∧ stopTunnel (stopTunnel s).2 = (none, s) := by
  have h1 : stopTunnel s = (none, s) := by
    simp [stopTunnel, h]
  exact ⟨h1, by rw [h1]; exact h1⟩

/-- Witness for C3: both stops from the fresh Idle state succeed without state
change. -/
theorem stop_idempotent_from_idle_witness :
    stopTunnel initState = (none, initState) ∧
      stopTunnel (stopTunnel initState).2 = (none, initState) :=
  stop_idempotent_from_idle initState rfl

/-- Claim C6 (confirmed): a second initSession while the session is already
Initialized fails with AlreadyInitialized and leaves the whole state — in
particular the session material — exactly as after the first call. -/
theorem initSession_no_replace (s : ControllerState) (c1 c2 : String)
    (h : (initOlm c1 s).1 = none) :
    (initOlm c2 (initOlm c1 s).2).1 = some (errString .AlreadyInitialized) ∧
      (initOlm c2 (initOlm c1 s).2).2 = (initOlm c1 s).2 := by
  by_cases hi : s.session.initialized
  · simp [initOlm, hi] at h
  · cases hd : decode c1 with
    | none => simp [initOlm, hi, hd] at h
    | some c =>
        have h2 : (initOlm c1 s).2 = { s with session := ⟨true, c.raw⟩ } := by
          simp [initOlm, hi, hd]
        rw [h2]
        constructor <;> simp [initOlm]

/-- Witness for C6: after a successful initSession from the fresh state, a
second initSession fails with AlreadyInitialized and changes nothing. -/
theorem initSession_no_replace_witness :
    (initOlm "b" (initOlm "a" initState).2).1 = some (errString .AlreadyInitialized) ∧
      (initOlm "b" (initOlm "a" initState).2).2 = (initOlm "a" initState).2 :=
  initSession_no_replace initState "a" "b" rfl

/-- Claim C7 (confirmed): with the tunnel in Starting/Running, adding a second
device whose derived identity equals the first one's returns DuplicateDevice
and leaves the DeviceRegistry (contents, hence size) and the whole state as
they were after the first call. -/
theorem addDevice_duplicate (s : ControllerState) (fd1 fd2 : Int)
    (hrun : s.tunnel = .Starting ∨ s.tunnel = .Running)
    (hid : deriveIdentity fd1 = deriveIdentity fd2) :
    (addDevice fd2 (addDevice fd1 s).2).1 = some (errString .DuplicateDevice) ∧
      (addDevice fd2 (addDevice fd1 s).2).2.devices = (addDevice fd1 s).2.devices ∧
      (addDevice fd2 (addDevice fd1 s).2).2 = (addDevice fd1 s).2 := by
  have key : (addDevice fd2 (addDevice fd1 s).2) = (some (errString .DuplicateDevice), (addDevice fd1 s).2) := by
    cases hrun with
    | inl h =>
        by_cases hc : deriveIdentity fd1 ∈ s.devices
        · have h1 : (addDevice fd1 s).2 = s := by simp [addDevice, h, hc]
          rw [h1]
          simp [addDevice, h, ← hid, hc]
        · have h1 : (addDevice fd1 s).2
              = commit s.snapshot { s with devices := deriveIdentity fd1 :: s.devices } := by
            simp [addDevice, h, hc]
          rw [h1]
          simp [addDevice, commit, h, ← hid]
    | inr h =>
        by_cases hc : deriveIdentity fd1 ∈ s.devices
        · have h1 : (addDevice fd1 s).2 = s := by simp [addDevice, h, hc]
          rw [h1]
          simp [addDevice, h, ← hid, hc]
        · have h1 : (addDevice fd1 s).2
              = commit s.snapshot { s with devices := deriveIdentity fd1 :: s.devices } := by
            simp [addDevice, h, hc]
          rw [h1]
          simp [addDevice, commit, h, ← hid]
  rw [key]
  exact ⟨rfl, rfl, rfl⟩

/-- Witness for C7: in a concrete Running state, adding fd 7 twice yields
DuplicateDevice the second time with an unchanged registry. -/
theorem addDevice_duplicate_witness :
    (addDevice 7 (addDevice 7 (⟨.Running, some 3, ⟨true, "m"⟩, [], 1, "p", none, [], .Normal⟩ : ControllerState)).2).1
        = some (errString .DuplicateDevice) ∧
      (addDevice 7 (addDevice 7 (⟨.Running, some 3, ⟨true, "m"⟩, [], 1, "p", none, [], .Normal⟩ : ControllerState)).2).2.devices
        = (addDevice 7 (⟨.Running, some 3, ⟨true, "m"⟩, [], 1, "p", none, [], .Normal⟩ : ControllerState)).2.devices ∧
      (addDevice 7 (addDevice 7 (⟨.Running, some 3, ⟨true, "m"⟩, [], 1, "p", none, [], .Normal⟩ : ControllerState)).2).2
        = (addDevice 7 (⟨.Running, some 3, ⟨true, "m"⟩, [], 1, "p", none, [], .Normal⟩ : ControllerState)).2 :=
  addDevice_duplicate ⟨.Running, some 3, ⟨true, "m"⟩, [], 1, "p", none, [], .Normal⟩ 7 7 (Or.inr rfl) rfl

/-- Claim C10 (confirmed): disableFileLogging always succeeds (null result),
is a no-op when logging is not enabled, and a repeated call also succeeds and
changes nothing further. -/
theorem disableFileLogging_idempotent (s : ControllerState) :
    (disableFileLogging s).1 = none ∧
      (s.logSink = none → (disableFileLogging s).2 = s) ∧
      (disableFileLogging (disableFileLogging s).2).1 = none ∧
      (disableFileLogging (disableFileLogging s).2).2 = (disableFileLogging s).2 := by
  refine ⟨rfl, ?_, rfl, rfl⟩
  intro h
  cases s
  simp_all [disableFileLogging]

/-- Witness for C10: from the fresh state (logging not enabled),
disableFileLogging succeeds, changes nothing, and does so again when
repeated. -/
theorem disableFileLogging_idempotent_witness :
    (disableFileLogging initState).1 = none ∧
      (disableFileLogging initState).2 = initState ∧
      (disableFileLogging (disableFileLogging initState).2).1 = none ∧
      (disableFileLogging (disableFileLogging initState).2).2
        = (disableFileLogging initState).2 :=
  ⟨(disableFileLogging_idempotent initState).1,
   (disableFileLogging_idempotent initState).2.1 rfl,
   (disableFileLogging_idempotent initState).2.2.1,
   (disableFileLogging_idempotent initState).2.2.2⟩

/-- Claim C5 (confirmed): from the fresh initial state, the trace
initSession(valid config); startTunnel(fd 3, valid config);
getNetworkSettingsVersion; addDevice(fd 3); getNetworkSettingsVersion;
stopTunnel; addDevice(fd 3) yields success(null), success(null), 1,
success(null), a value at least 1, success(null), and NotRunning, in that
order. -/
theorem scenario_trace :
    (initOlm "\x7b\"key\":\"abc\"\x7d" initState).1 = none ∧
      (startTunnel 3 "\x7b\"key\":\"abc\"\x7d" (initOlm "\x7b\"key\":\"abc\"\x7d" initState).2).1 = none ∧
      getNetworkSettingsVersion (startTunnel 3 "\x7b\"key\":\"abc\"\x7d" (initOlm "\x7b\"key\":\"abc\"\x7d" initState).2).2 = 1 ∧
      (addDevice 3 (startTunnel 3 "\x7b\"key\":\"abc\"\x7d" (initOlm "\x7b\"key\":\"abc\"\x7d" initState).2).2).1 = none ∧
      1 ≤ getNetworkSettingsVersion (addDevice 3 (startTunnel 3 "\x7b\"key\":\"abc\"\x7d" (initOlm "\x7b\"key\":\"abc\"\x7d" initState).2).2).2 ∧
      (stopTunnel (addDevice 3 (startTunnel 3 "\x7b\"key\":\"abc\"\x7d" (initOlm "\x7b\"key\":\"abc\"\x7d" initState).2).2).2).1 = none ∧
      (addDevice 3 (stopTunnel (addDevice 3 (startTunnel 3 "\x7b\"key\":\"abc\"\x7d" (initOlm "\x7b\"key\":\"abc\"\x7d" initState).2).2).2).2).1
        = some (errString .NotRunning) := by
  decide

/-- Claim C2 (confirmed): startTunnel is all-or-nothing — in every reachable
state, if the start sequence fails (any failure other than the InvalidState
rejection that precedes the sequence, in particular SessionNotReady), then
afterwards no TunnelHandle is acquired, the DeviceRegistry is empty, and the
controller is Idle. -/
theorem start_all_or_nothing (ops : List Op) (fd : Int) (cfg : String) (e : String)
    (he : (startTunnel fd cfg (run ops initState)).1 = some e)
    (hne : e ≠ errString .InvalidState) :
    (startTunnel fd cfg (run ops initState)).2.tunnel = .Idle ∧
      (startTunnel fd cfg (run ops initState)).2.handle = none ∧
      (startTunnel fd cfg (run ops initState)).2.devices = [] := by
  obtain ⟨h1, h2, h3⟩ := inv_run ops
  by_cases ht : (run ops initState).tunnel = .Idle
  · cases hd : decode cfg with
    | none =>
        have hst : (startTunnel fd cfg (run ops initState)).2 = run ops initState := by
          simp [startTunnel, ht, hd]
        rw [hst]; exact ⟨ht, (h2 ht).1, (h2 ht).2⟩
    | some c =>
        by_cases hi : (run ops initState).session.initialized
        · exfalso
          have hok : (startTunnel fd cfg (run ops initState)).1 = none := by
            simp [startTunnel, ht, hd, hi]
          rw [hok] at he
          exact Option.noConfusion he
        · have hst : (startTunnel fd cfg (run ops initState)).2 = run ops initState := by
            simp [startTunnel, ht, hd, hi]
          rw [hst]; exact ⟨ht, (h2 ht).1, (h2 ht).2⟩
  · exfalso
    have hbad : (startTunnel fd cfg (run ops initState)).1
        = some (errString .InvalidState) := by
      simp [startTunnel, ht]
    rw [hbad] at he
    exact hne (Option.some.inj he).symm

/-- Witness for C2: from the fresh state (no session yet), starting fails and
leaves the tunnel Idle with no handle and an empty registry. -/
theorem start_all_or_nothing_witness :
    (startTunnel 3 "cfg" (run [] initState)).2.tunnel = .Idle ∧
      (startTunnel 3 "cfg" (run [] initState)).2.handle = none ∧
      (startTunnel 3 "cfg" (run [] initState)).2.devices = [] :=
  start_all_or_nothing [] 3 "cfg" (errString .SessionNotReady) (by decide) (by decide)

/-- Claim C8 (confirmed): in every reachable state with the tunnel in
Starting/Running, stopTunnel succeeds, releases the TunnelHandle, clears the
DeviceRegistry, and leaves the SessionManager state unchanged; a subsequent
startTunnel with a decodable config then succeeds without any new initSession
call, still holding the same session. -/
theorem stop_keeps_session (ops : List Op) (fd : Int) (cfg : String)
    (hrun : (run ops initState).tunnel = .Starting ∨
      (run ops initState).tunnel = .Running)
    (hcfg : (decode cfg).isSome = true) :
    (stopTunnel (run ops initState)).1 = none ∧
      (stopTunnel (run ops initState)).2.handle = none ∧
      (stopTunnel (run ops initState)).2.devices = [] ∧
      (stopTunnel (run ops initState)).2.session = (run ops initState).session ∧
      (startTunnel fd cfg (stopTunnel (run ops initState)).2).1 = none ∧
      (startTunnel fd cfg (stopTunnel (run ops initState)).2).2.session
        = (run ops initState).session := by
  obtain ⟨h1, h2, h3⟩ := inv_run ops
  have ht : (run ops initState).tunnel = .Running := by
    rcases h1 with hI | hR
    · rcases hrun with h | h <;> rw [hI] at h <;> exact absurd h (by simp)
    · exact hR
  obtain ⟨c, hc⟩ := Option.isSome_iff_exists.mp hcfg
  have hinit : (run ops initState).session.initialized = true := (h3 ht).2
  have hstop : stopTunnel (run ops initState)
      = (none, { run ops initState with tunnel := .Idle, handle := none, devices := [] }) := by
    simp [stopTunnel, ht]
  rw [hstop]
  refine ⟨rfl, rfl, rfl, rfl, ?_, ?_⟩ <;>
    simp [startTunnel, hc, commit, hinit]

/-- Witness for C8: after initSession and startTunnel the tunnel is Running;
stopping succeeds, frees the handle, clears the registry, keeps the session,
and a restart with a fresh config succeeds on the same session. -/
theorem stop_keeps_session_witness :
    (stopTunnel (run [Op.init "c", Op.start 3 "c"] initState)).1 = none ∧
      (stopTunnel (run [Op.init "c", Op.start 3 "c"] initState)).2.handle = none ∧
      (stopTunnel (run [Op.init "c", Op.start 3 "c"] initState)).2.devices = [] ∧
      (stopTunnel (run [Op.init "c", Op.start 3 "c"] initState)).2.session
        = (run [Op.init "c", Op.start 3 "c"] initState).session ∧
      (startTunnel 4 "d" (stopTunnel (run [Op.init "c", Op.start 3 "c"] initState)).2).1 = none ∧
      (startTunnel 4 "d" (stopTunnel (run [Op.init "c", Op.start 3 "c"] initState)).2).2.session
        = (run [Op.init "c", Op.start 3 "c"] initState).session :=
  stop_keeps_session [Op.init "c", Op.start 3 "c"] 4 "d" (by decide) (by decide)

theorem validPath_idle_running : validPath .Idle .Running :=
  Relation.ReflTransGen.tail
    (Relation.ReflTransGen.single (show edge .Idle .Starting = true from rfl))
    (show edge .Starting .Running = true from rfl)

theorem validPath_running_idle : validPath .Running .Idle :=
  Relation.ReflTransGen.tail
    (Relation.ReflTransGen.single (show edge .Running .Stopping = true from rfl))
    (show edge .Stopping .Idle = true from rfl)

theorem validPath_starting_idle : validPath .Starting .Idle :=
  Relation.ReflTransGen.tail
    (Relation.ReflTransGen.tail
      (Relation.ReflTransGen.single (show edge .Starting .Running = true from rfl))
      (show edge .Running .Stopping = true from rfl))
    (show edge .Stopping .Idle = true from rfl)

/-- Counterexample to claim C1 as stated: addDevice attempted from Idle — a
state where it is invalid — returns the NotRunning error, not InvalidState
(the state is left unchanged, but the error code differs from the claim). -/
theorem state_machine_counterexample :
    invalidFor (Op.add 3) initState = true ∧
      (runOp (Op.add 3) initState).1 = some (errString .NotRunning) ∧
      ¬(runOp (Op.add 3) initState).1 = some (errString .InvalidState) := by
  refine ⟨rfl, rfl, ?_⟩
  decide

/-- Claim C1 (amended): every operation moves the observed controller state
along a valid path of the machine Idle → Starting → Running → Stopping → Idle
(staying put, Idle to Running through Starting on a successful start, or
Starting/Running to Idle through Stopping on stop), and any operation
attempted from a state where it is invalid fails with the lifecycle error the
spec assigns that operation (InvalidState for startTunnel, NotRunning for
addDevice, AlreadyInitialized for initSession) and leaves the entire
controller state unchanged. -/
theorem state_machine_ok (op : Op) (s : ControllerState) :
    validPath s.tunnel (runOp op s).2.tunnel ∧
      ((runOp op s).2.tunnel = s.tunnel ∨
        (s.tunnel = .Idle ∧ (runOp op s).2.tunnel = .Running) ∨
        ((s.tunnel = .Starting ∨ s.tunnel = .Running) ∧
          (runOp op s).2.tunnel = .Idle)) ∧
      (invalidFor op s = true →
        (runOp op s).1 = some (errString (lifecycleError op)) ∧
          (runOp op s).2 = s) := by
  have hmove : (runOp op s).2.tunnel = s.tunnel ∨
      (s.tunnel = .Idle ∧ (runOp op s).2.tunnel = .Running) ∨
      ((s.tunnel = .Starting ∨ s.tunnel = .Running) ∧
        (runOp op s).2.tunnel = .Idle) := by
    cases op with
    | init c =>
        left
        by_cases hi : s.session.initialized
        · simp [runOp, initOlm, hi]
        · cases hd : decode c <;> simp [runOp, initOlm, hi, hd]
    | start fd c =>
        by_cases ht : s.tunnel = .Idle
        · cases hd : decode c with
          | none => left; simp [runOp, startTunnel, ht, hd]
          | some cc =>
              by_cases hi : s.session.initialized
              · right; left
                exact ⟨ht, by simp [runOp, startTunnel, ht, hd, hi, commit]⟩
              · left; simp [runOp, startTunnel, ht, hd, hi]
        · left; simp [runOp, startTunnel, ht]
    | add fd =>
        left
        cases ht : s.tunnel with
        | Starting =>
            by_cases hm : deriveIdentity fd ∈ s.devices <;>
              simp [runOp, addDevice, ht, hm, commit]
        | Running =>
            by_cases hm : deriveIdentity fd ∈ s.devices <;>
              simp [runOp, addDevice, ht, hm, commit]
        | Idle => simp [runOp, addDevice, ht]
        | Stopping => simp [runOp, addDevice, ht]
    | stop =>
        cases ht : s.tunnel with
        | Idle => left; simp [runOp, stopTunnel, ht]
        | Starting =>
            right; right
            exact ⟨Or.inl rfl, by simp [runOp, stopTunnel, ht]⟩
        | Running =>
            right; right
            exact ⟨Or.inr rfl, by simp [runOp, stopTunnel, ht]⟩
        | Stopping => left; simp [runOp, stopTunnel, ht]
    | power m => left; cases hm : parsePowerMode m <;> simp [runOp, setPowerMode, hm]
    | enableLog p => left; by_cases hp : p.isEmpty <;> simp [runOp, enableFileLogging, hp]
    | disableLog => left; rfl
    | ingest m => left; cases hl : s.logSink <;> simp [runOp, logFromAndroid, hl]
    | readVersion => left; rfl
    | readSettings => left; rfl
  refine ⟨?_, hmove, ?_⟩
  · rcases hmove with h | ⟨h1, h2⟩ | ⟨h1, h2⟩
    · rw [h]; exact Relation.ReflTransGen.refl
    · rw [h1, h2]; exact validPath_idle_running
    · rcases h1 with h1 | h1
      · rw [h1, h2]; exact validPath_starting_idle
      · rw [h1, h2]; exact validPath_running_idle
  · intro hinv
    cases op with
    | init c =>
        have hi : s.session.initialized = true := by
          simpa [invalidFor] using hinv
        constructor <;> simp [runOp, initOlm, hi, lifecycleError]
    | start fd c =>
        have ht : ¬s.tunnel = .Idle := by
          simpa [invalidFor] using hinv
        constructor <;> simp [runOp, startTunnel, ht, lifecycleError]
    | add fd =>
        have ht : ¬(s.tunnel = .Starting ∨ s.tunnel = .Running) := by
          simpa [invalidFor] using hinv
        push_neg at ht
        cases htc : s.tunnel with
        | Idle => constructor <;> simp [runOp, addDevice, htc, lifecycleError]
        | Stopping => constructor <;> simp [runOp, addDevice, htc, lifecycleError]
        | Starting => exact absurd htc ht.1
        | Running => exact absurd htc ht.2
    | stop => simp [invalidFor] at hinv
    | power m => simp [invalidFor] at hinv
    | enableLog p => simp [invalidFor] at hinv
    | disableLog => simp [invalidFor] at hinv
    | ingest m => simp [invalidFor] at hinv
    | readVersion => simp [invalidFor] at hinv
    | readSettings => simp [invalidFor] at hinv

/-- Witness for C1 (amended): addDevice from the fresh Idle state is invalid
and fails with its assigned lifecycle error, NotRunning, changing nothing. -/
theorem state_machine_ok_witness :
    (runOp (Op.add 3) initState).1 = some (errString (lifecycleError (Op.add 3))) ∧
      (runOp (Op.add 3) initState).2 = initState :=
  (state_machine_ok (Op.add 3) initState).2.2 (by decide)

theorem jniString_id (r : Option String) : jniString r = r := by
  cases r <;> rfl

/-- Claim C9 (confirmed): for every boundary operation returning an
error-string-or-null result (initSession, startTunnel, addDevice, stopTunnel,
setPowerMode), the value the managed caller observes through the jni.c
wrapper is null exactly when the operation succeeded, and whenever the
operation failed it is a descriptive error string of the taxonomy — no
failure is silently swallowed. -/
theorem boundary_null_iff_success (op : Op) (s : ControllerState)
    (hop : isResultOp op = true) :
    ((boundary op s).1 = none ↔ opSucceeds op s = true) ∧
      (opSucceeds op s = false →
        ∃ e : Err, (boundary op s).1 = some (errString e)) := by
  cases op with
  | init c =>
      by_cases hi : s.session.initialized
      · refine ⟨?_, fun _ => ⟨.AlreadyInitialized, ?_⟩⟩ <;>
          simp [boundary, runOp, jniString_id, initOlm, opSucceeds, hi]
      · cases hd : decode c with
        | none =>
            refine ⟨?_, fun _ => ⟨.DecodeError, ?_⟩⟩ <;>
              simp [boundary, runOp, jniString_id, initOlm, opSucceeds, hi, hd]
        | some cc =>
            refine ⟨?_, fun hf => ?_⟩
            · simp [boundary, runOp, jniString_id, initOlm, opSucceeds, hi, hd]
            · exfalso; simp [opSucceeds, hi, hd] at hf
  | start fd c =>
      by_cases ht : s.tunnel = .Idle
      · cases hd : decode c with
        | none =>
            refine ⟨?_, fun _ => ⟨.DecodeError, ?_⟩⟩ <;>
              simp [boundary, runOp, jniString_id, startTunnel, opSucceeds, ht, hd]
        | some cc =>
            by_cases hi : s.session.initialized
            · refine ⟨?_, fun hf => ?_⟩
              · simp [boundary, runOp, jniString_id, startTunnel, opSucceeds, ht, hd, hi]
              · exfalso; simp [opSucceeds, ht, hd, hi] at hf
            · refine ⟨?_, fun _ => ⟨.SessionNotReady, ?_⟩⟩ <;>
                simp [boundary, runOp, jniString_id, startTunnel, opSucceeds, ht, hd, hi]
      · refine ⟨?_, fun _ => ⟨.InvalidState, ?_⟩⟩ <;>
          simp [boundary, runOp, jniString_id, startTunnel, opSucceeds, ht]
  | add fd =>
      cases ht : s.tunnel with
      | Idle =>
          refine ⟨?_, fun _ => ⟨.NotRunning, ?_⟩⟩ <;>
            simp [boundary, runOp, jniString_id, addDevice, opSucceeds, ht]
      | Stopping =>
          refine ⟨?_, fun _ => ⟨.NotRunning, ?_⟩⟩ <;>
            simp [boundary, runOp, jniString_id, addDevice, opSucceeds, ht]
      | Starting =>
          by_cases hm : deriveIdentity fd ∈ s.devices
          · refine ⟨?_, fun _ => ⟨.DuplicateDevice, ?_⟩⟩ <;>
              simp [boundary, runOp, jniString_id, addDevice, opSucceeds, ht, hm]
          · refine ⟨?_, fun hf => ?_⟩
            · simp [boundary, runOp, jniString_id, addDevice, opSucceeds, ht, hm]
            · exfalso; simp [opSucceeds, ht, hm] at hf
      | Running =>
          by_cases hm : deriveIdentity fd ∈ s.devices
          · refine ⟨?_, fun _ => ⟨.DuplicateDevice, ?_⟩⟩ <;>
              simp [boundary, runOp, jniString_id, addDevice, opSucceeds, ht, hm]
          · refine ⟨?_, fun hf => ?_⟩
            · simp [boundary, runOp, jniString_id, addDevice, opSucceeds, ht, hm]
            · exfalso; simp [opSucceeds, ht, hm] at hf
  | stop =>
      cases ht : s.tunnel with
      | Idle =>
          refine ⟨?_, fun hf => ?_⟩
          · simp [boundary, runOp, jniString_id, stopTunnel, opSucceeds, ht]
          · exfalso; simp [opSucceeds, ht] at hf
      | Starting =>
          refine ⟨?_, fun hf => ?_⟩
          · simp [boundary, runOp, jniString_id, stopTunnel, opSucceeds, ht]
          · exfalso; simp [opSucceeds, ht] at hf
      | Running =>
          refine ⟨?_, fun hf => ?_⟩
          · simp [boundary, runOp, jniString_id, stopTunnel, opSucceeds, ht]
          · exfalso; simp [opSucceeds, ht] at hf
      | Stopping =>
          refine ⟨?_, fun _ => ⟨.InvalidState, ?_⟩⟩ <;>
            simp [boundary, runOp, jniString_id, stopTunnel, opSucceeds, ht]
  | power m =>
      cases hm : parsePowerMode m with
      | none =>
          refine ⟨?_, fun _ => ⟨.UnknownMode, ?_⟩⟩ <;>
            simp [boundary, runOp, jniString_id, setPowerMode, opSucceeds, hm]
      | some p =>
          refine ⟨?_, fun hf => ?_⟩
          · simp [boundary, runOp, jniString_id, setPowerMode, opSucceeds, hm]
          · exfalso; simp [opSucceeds, hm] at hf
  | enableLog p => simp [isResultOp] at hop
  | disableLog => simp [isResultOp] at hop
  | ingest m => simp [isResultOp] at hop
  | readVersion => simp [isResultOp] at hop
  | readSettings => simp [isResultOp] at hop

/-- Witness for C9: setPowerMode with an unrecognized mode string fails, and
the boundary surfaces a non-null descriptive error string for it. -/
theorem boundary_null_iff_success_witness :
    ((boundary (Op.power "warp") initState).1 = none ↔
        opSucceeds (Op.power "warp") initState = true) ∧
      (∃ e : Err, (boundary (Op.power "warp") initState).1 = some (errString e)) :=
  ⟨(boundary_null_iff_success (Op.power "warp") initState rfl).1,
   (boundary_null_iff_success (Op.power "warp") initState rfl).2 (by decide)⟩

end Pangolin
